import Mathlib

/-
Formal model of the word-sense disambiguation core of NLP_Context_Bot
(src/app.py, class NLPChatBot).

Modelling notes, keyed to the source:

* A curated sense (the inner dicts of `self.special_cases`, lines 84-125)
  carries a label (the dict key), a list of trigger terms and a definition
  string.  The Python dicts preserve insertion order, so the table is an
  association list in source order.
* `disambiguate_word(word, context)` (lines 212-235) lowercases the word,
  builds the set of lowercased context tokens, scans the senses of the word
  in order and returns the definition of the first sense whose triggers
  intersect the context tokens; otherwise it runs a WordNet branch inside
  try/except and finally returns None.  Tokenization of the context string
  (nltk with a regex fallback, lines 135-141) is the upstream collaborator
  of the spec; the context is therefore modelled by its token list.
* The WordNet branch references the free name `wn`, which is never bound
  anywhere in app.py (only `import nltk` exists), so `wn.ADJ`, `wn.VERB`,
  `wn.NOUN`, `wn.ADV` (lines 200-210) and `wn.synsets` (line 227) raise
  NameError.  Fallible statements are modelled in `Except String`, with the
  NameError as the error value, and the bare `except: pass` of lines
  232-233 as the handler that maps any error to the final `return None`.
* The POS tag of the target word (`self.pos_tag([word])[0][1]`, line 225)
  comes from nltk, an external collaborator; it is modelled as an arbitrary
  function `tagger : String → String`, and every theorem quantifies over it.
* The Python function returns only the definition string or None.  The
  record `DisambiguationResult` additionally names the branch that produced
  the result, using the vocabulary of the result model: "override" for the
  trigger branch, "wordnet" for a successful WordNet lookup, "none" for the
  final `return None`.  `disambiguate_word` projects out the Python value.
-/

/-- Python `str.lower()` as used on the ASCII words of app.py: lowercase
character by character.  (Defined structurally over the character list so
that concrete instances evaluate; it agrees with `String.toLower`, which is
the same map with an optimized implementation.) -/
def lower (s : String) : String :=
  String.mk (s.data.map Char.toLower)

structure Sense where
  label : String
  triggers : List String
  definition : String
deriving DecidableEq

def bankFinancial : Sense :=
  ⟨"financial", ["money", "account", "loan", "deposit", "cash", "withdraw"],
    "🏦 Financial institution that handles money transactions"⟩

def bankRiver : Sense :=
  ⟨"river", ["water", "fish", "stream", "shore", "river", "boat"],
    "🌊 Sloping land beside a body of water"⟩

def batSports : Sense :=
  ⟨"sports", ["baseball", "cricket", "hit", "game", "play", "sport"],
    "🏏 Club used in sports like baseball or cricket"⟩

def batAnimal : Sense :=
  ⟨"animal", ["fly", "wing", "mammal", "cave", "flying", "nocturnal"],
    "🦇 Nocturnal flying mammal with wings"⟩

def bookReading : Sense :=
  ⟨"reading", ["read", "novel", "author", "page", "chapter", "library"],
    "📖 Written or printed work consisting of pages"⟩

def bookReserve : Sense :=
  ⟨"reserve", ["reservation", "ticket", "appointment", "schedule", "table"],
    "📅 To arrange something in advance"⟩

def playTheater : Sense :=
  ⟨"theater", ["actor", "stage", "drama", "theater", "performance"],
    "🎭 Dramatic work performed on stage"⟩

def playGames : Sense :=
  ⟨"games", ["game", "sports", "children", "fun", "toy"],
    "🎮 Engage in activity for enjoyment"⟩

/-- The `self.special_cases` table of app.py lines 84-125, in source order. -/
def special_cases : List (String × List Sense) :=
  [("bank", [bankFinancial, bankRiver]),
   ("bat", [batSports, batAnimal]),
   ("book", [bookReading, bookReserve]),
   ("play", [playTheater, playGames])]

/-- `self.special_cases[word_lower]` with the `word_lower in self.special_cases`
guard: an absent word yields the empty sense list, which makes the trigger
scan a no-op exactly as skipping the guarded block does. -/
def lookupSenses (table : List (String × List Sense)) (w : String) : List Sense :=
  match table.find? (fun p => p.1 == w) with
  | some p => p.2
  | none => []

/-- `context_words = set(w.lower() for w in self.tokenize(context))`
(line 215), with the context given by its token list. -/
def contextWordsOf (tokens : List String) : List String :=
  tokens.map lower

/-- `any(trigger in context_words for trigger in sense_data["triggers"])`
(line 220). -/
def senseMatches (s : Sense) (cw : List String) : Bool :=
  s.triggers.any (fun t => cw.contains t)

/-- The `for sense_name, sense_data in ...items()` loop of lines 219-221:
the first sense in table order whose triggers intersect the context words. -/
def findTriggered (cw : List String) : List Sense → Option Sense
  | [] => none
  | s :: rest => if senseMatches s cw then some s else findTriggered cw rest

/-- The NameError raised by every reference to the unbound name `wn`. -/
def nameErrorWn : String := "NameError: name wn is not defined"

/-- Python `str.startswith`: the first string begins with the second.
(Structural over the character lists so that concrete instances evaluate;
it agrees with `String.startsWith`.) -/
def startswith (s pre : String) : Bool :=
  pre.data.isPrefixOf s.data

/-- `get_wordnet_pos` (lines 200-210): each matching branch evaluates an
attribute of the unbound name `wn` and raises NameError; the fall-through
returns None. -/
def get_wordnet_pos (treebank_tag : String) : Except String (Option String) :=
  if startswith treebank_tag "J" then Except.error nameErrorWn
  else if startswith treebank_tag "V" then Except.error nameErrorWn
  else if startswith treebank_tag "N" then Except.error nameErrorWn
  else if startswith treebank_tag "R" then Except.error nameErrorWn
  else Except.ok none

/-- `wn.synsets(word, pos=wn_pos)` (line 227): `wn` is unbound, so the call
raises NameError for every argument. -/
def wn_synsets (_word : String) (_pos : Option String) : Except String (List String) :=
  Except.error nameErrorWn

/-- The body of the `try:` block of lines 224-231: obtain the POS of the
word from the upstream tagger, map it through `get_wordnet_pos`, call
`wn.synsets`, and return the definition of the first synset when the list
is non-empty; exceptions propagate to the caller. -/
def wordnetLookup (tagger : String → String) (word : String) :
    Except String (Option String) :=
  match get_wordnet_pos (tagger word) with
  | Except.error e => Except.error e
  | Except.ok wn_pos =>
    match wn_synsets word wn_pos with
    | Except.error e => Except.error e
    | Except.ok synsets =>
      match synsets with
      | [] => Except.ok none
      | d :: _ => Except.ok (some d)

/-- Result record in the vocabulary of the result model: the value the
Python function returns, plus the name of the branch that produced it. -/
structure DisambiguationResult where
  resolvedSense : Option String
  matchedBy : String
deriving DecidableEq

/-- The body of `disambiguate_word` after the inventory lookup: the trigger
scan over the given senses, then the WordNet attempt with its `except: pass`
handler, then `return None`. -/
def resolveSenses (senses : List Sense) (tagger : String → String)
    (word : String) (tokens : List String) : DisambiguationResult :=
  match findTriggered (contextWordsOf tokens) senses with
  | some s => ⟨some s.definition, "override"⟩
  | none =>
    match wordnetLookup tagger word with
    | Except.ok (some d) => ⟨some d, "wordnet"⟩
    | Except.ok none => ⟨none, "none"⟩
    | Except.error _ => ⟨none, "none"⟩

/-- `disambiguate_word(word, context)` (lines 212-235) over a given
special-case table, with the produced branch recorded. -/
def resolveWith (table : List (String × List Sense)) (tagger : String → String)
    (word : String) (tokens : List String) : DisambiguationResult :=
  resolveSenses (lookupSenses table (lower word)) tagger word tokens

/-- The value `disambiguate_word` actually returns: a definition string or
None. -/
def disambiguate_word (tagger : String → String) (word : String)
    (tokens : List String) : Option String :=
  (resolveWith special_cases tagger word tokens).resolvedSense

/-- The mutable bot object: `self` as seen by `disambiguate_word`, holding
the `special_cases` table, the only attribute the method reads.  The method
body contains no assignment to `self`, so a call leaves the state as it
was. -/
structure BotState where
  special_cases : List (String × List Sense)

/-- The bot as constructed by `NLPChatBot.__init__` (the spell-checker state
it also builds is never consulted by disambiguation). -/
def initBot : BotState :=
  ⟨special_cases⟩

/-- One call `bot.disambiguate_word(word, context)`: the returned value
together with the state of the bot after the call. -/
def disambiguateCall (b : BotState) (tagger : String → String) (word : String)
    (tokens : List String) : DisambiguationResult × BotState :=
  (resolveWith b.special_cases tagger word tokens, b)

/-- The curated senses of app.py carry only trigger terms and a definition:
no sense record has a grammatical-category entry. -/
def grammaticalCategory (_s : Sense) : Option String :=
  none

/-- Modelled from the spec (section 4.2 step 2, a step with no counterpart
in `disambiguate_word`): narrow the candidate list to the senses whose
grammatical category matches the mapped category of the tag, if any senses
match; otherwise keep the full list. -/
def specFilterByTag (mapCat : String → String) (tag : String)
    (senses : List Sense) : List Sense :=
  match senses.filter (fun s => grammaticalCategory s == some (mapCat tag)) with
  | [] => senses
  | matching => matching

/-- Modelled from the spec (section 4.2 step 4, a step with no counterpart
in `disambiguate_word`): the overlap count of a sense is the size of the
intersection between the context token set and the sense signature, the
signature being given as a duplicate-free list of lowercase terms. -/
def overlapCount (signature : List String) (cw : List String) : Nat :=
  (signature.filter (fun t => cw.contains t)).length

/-- Modelled from the spec (sections 3 and 4.2 step 4): the full textual
signature of the reading sense of book, the trigger terms together with the
definition text tokenized and lowercased. -/
def bookReadingSpecSignature : List String :=
  bookReading.triggers ++
    ["📖", "written", "or", "printed", "work", "consisting", "of", "pages"]

/-- Modelled from the spec (sections 3 and 4.2 step 4): the full textual
signature of the reserve sense of book. -/
def bookReserveSpecSignature : List String :=
  bookReserve.triggers ++
    ["📅", "to", "arrange", "something", "in", "advance"]

/-! ## Helper lemmas -/

theorem get_wordnet_pos_cases (tag : String) :
    get_wordnet_pos tag = Except.error nameErrorWn ∨
      get_wordnet_pos tag = Except.ok none := by
  unfold get_wordnet_pos
  split_ifs <;> simp

theorem wordnetLookup_eq_error (tagger : String → String) (word : String) :
    wordnetLookup tagger word = Except.error nameErrorWn := by
  unfold wordnetLookup
  rcases get_wordnet_pos_cases (tagger word) with h | h
  · rw [h]
  · rw [h]; rfl

theorem resolveSenses_of_trigger (senses : List Sense) (tagger : String → String)
    (word : String) (tokens : List String) (s : Sense)
    (h : findTriggered (contextWordsOf tokens) senses = some s) :
    resolveSenses senses tagger word tokens = ⟨some s.definition, "override"⟩ := by
  unfold resolveSenses
  rw [h]

theorem resolveSenses_of_no_trigger (senses : List Sense) (tagger : String → String)
    (word : String) (tokens : List String)
    (h : findTriggered (contextWordsOf tokens) senses = none) :
    resolveSenses senses tagger word tokens = ⟨none, "none"⟩ := by
  unfold resolveSenses
  rw [h, wordnetLookup_eq_error]

theorem resolveWith_of_trigger (table : List (String × List Sense))
    (tagger : String → String) (word : String) (tokens : List String) (s : Sense)
    (h : findTriggered (contextWordsOf tokens) (lookupSenses table (lower word)) = some s) :
    resolveWith table tagger word tokens = ⟨some s.definition, "override"⟩ := by
  unfold resolveWith
  exact resolveSenses_of_trigger _ _ _ _ _ h

theorem resolveWith_of_no_trigger (table : List (String × List Sense))
    (tagger : String → String) (word : String) (tokens : List String)
    (h : findTriggered (contextWordsOf tokens) (lookupSenses table (lower word)) = none) :
    resolveWith table tagger word tokens = ⟨none, "none"⟩ := by
  unfold resolveWith
  exact resolveSenses_of_no_trigger _ _ _ _ h

theorem findTriggered_eq_none (cw : List String) :
    ∀ l : List Sense, (∀ s ∈ l, senseMatches s cw = false) →
      findTriggered cw l = none := by
  intro l
  induction l with
  | nil => intro _; rfl
  | cons a t ih =>
    intro h
    have ha : senseMatches a cw = false := h a (by simp)
    have ht := ih (fun s hs => h s (by simp [hs]))
    simp [findTriggered, ha, ht]

theorem findTriggered_eq_get (cw : List String) :
    ∀ (l : List Sense) (i : Nat) (hi : i < l.length),
      senseMatches (l.get ⟨i, hi⟩) cw = true →
      (∀ s ∈ l.take i, senseMatches s cw = false) →
      findTriggered cw l = some (l.get ⟨i, hi⟩) := by
  intro l
  induction l with
  | nil => intro i hi _ _; exact absurd hi (by simp)
  | cons a t ih =>
    intro i hi hhit hbefore
    cases i with
    | zero =>
      have ha : senseMatches a cw = true := hhit
      simp [findTriggered, ha]
    | succ n =>
      have ha : senseMatches a cw = false := hbefore a (by simp)
      have hrec := ih n (by simp at hi; omega) hhit
        (fun s hs => hbefore s (by simp [hs]))
      have hstep : findTriggered cw (a :: t) = findTriggered cw t := by
        simp [findTriggered, ha]
      rw [hstep, hrec]
      rfl

theorem specFilterByTag_id (mapCat : String → String) (tag : String)
    (l : List Sense) : specFilterByTag mapCat tag l = l := by
  unfold specFilterByTag
  have h : l.filter (fun s => grammaticalCategory s == some (mapCat tag)) = [] := by
    induction l with
    | nil => rfl
    | cons a t ih => simp [List.filter_cons, grammaticalCategory, ih]
  rw [h]

/-! ## Claims -/

/-- Claim C1: for every word in the sense inventory and every context whose
lowercased token set meets the signature of the sense at position i while
missing the signatures of all earlier senses, resolution returns that sense
(the first in inventory order with a hit, even if a later sense also hits),
with the override branch taken. -/
theorem C1_first_trigger_override (tagger : String → String) (word : String)
    (tokens : List String) (i : Nat)
    (hi : i < (lookupSenses special_cases (lower word)).length)
    (hhit : senseMatches ((lookupSenses special_cases (lower word)).get ⟨i, hi⟩)
      (contextWordsOf tokens) = true)
    (hbefore : ∀ s ∈ (lookupSenses special_cases (lower word)).take i,
      senseMatches s (contextWordsOf tokens) = false) :
    resolveWith special_cases tagger word tokens =
      ⟨some ((lookupSenses special_cases (lower word)).get ⟨i, hi⟩).definition,
        "override"⟩ :=
  resolveWith_of_trigger special_cases tagger word tokens _
    (findTriggered_eq_get _ _ i hi hhit hbefore)

/-- Witness for C1 at word bank and context tokens [money, water]: the
river signature also hits, yet the financial sense (first in inventory
order) is returned via the override branch. -/
theorem C1_witness :
    senseMatches bankRiver (contextWordsOf ["money", "water"]) = true ∧
    resolveWith special_cases (fun _ => "NN") "bank" ["money", "water"] =
      ⟨some bankFinancial.definition, "override"⟩ := by
  refine ⟨by decide, ?_⟩
  have h := C1_first_trigger_override (fun _ => "NN") "bank" ["money", "water"]
    0 (by decide) (by decide) (by decide)
  exact h.trans (by decide)

/-- Counterexample to claim C2 as stated: for word bank and the context
[i, like, turtles] no trigger of either sense fires, and the code returns
no sense at all (the value None), not the first-listed financial sense with
a default label. -/
theorem C2_counterexample :
    (∀ s ∈ lookupSenses special_cases (lower "bank"),
      senseMatches s (contextWordsOf ["i", "like", "turtles"]) = false) ∧
    resolveWith special_cases (fun _ => "NN") "bank" ["i", "like", "turtles"] =
      ⟨none, "none"⟩ ∧
    (resolveWith special_cases (fun _ => "NN") "bank"
      ["i", "like", "turtles"]).resolvedSense ≠ some bankFinancial.definition ∧
    (resolveWith special_cases (fun _ => "NN") "bank"
      ["i", "like", "turtles"]).matchedBy ≠ "default" := by
  decide

/-- Claim C2 (amended): for every word present in the sense inventory and
every context in which no sense trigger intersects the context token set
(which includes the empty context), resolution returns no sense, with
resolvedSense None and the none branch taken: the default-to-first-sense
fallback of the spec does not exist in the code, whose WordNet fallback
always fails and whose final statement returns None. -/
theorem C2_no_trigger_returns_none (tagger : String → String) (word : String)
    (tokens : List String)
    (_hpresent : lookupSenses special_cases (lower word) ≠ [])
    (hnohit : ∀ s ∈ lookupSenses special_cases (lower word),
      senseMatches s (contextWordsOf tokens) = false) :
    resolveWith special_cases tagger word tokens = ⟨none, "none"⟩ :=
  resolveWith_of_no_trigger special_cases tagger word tokens
    (findTriggered_eq_none _ _ hnohit)

/-- Witness for the amended C2 at word bank and context [i, like, turtles]. -/
theorem C2_witness :
    resolveWith special_cases (fun _ => "NN") "bank" ["i", "like", "turtles"] =
      ⟨none, "none"⟩ :=
  C2_no_trigger_returns_none (fun _ => "NN") "bank" ["i", "like", "turtles"]
    (by decide) (by decide)

/-- Counterexample to claim C3 as stated: for word book and the context
[a, printed, work, with, pages] no trigger fires, the overlap count of the
spec-side full textual signature is 3 for the reading sense and 0 for the
reserve sense, so the claim demands the reading sense with the overlap
branch; the code instead returns no sense at all. -/
theorem C3_counterexample :
    (∀ s ∈ lookupSenses special_cases (lower "book"),
      senseMatches s (contextWordsOf ["a", "printed", "work", "with", "pages"]) = false) ∧
    overlapCount bookReadingSpecSignature
      (contextWordsOf ["a", "printed", "work", "with", "pages"]) = 3 ∧
    overlapCount bookReserveSpecSignature
      (contextWordsOf ["a", "printed", "work", "with", "pages"]) = 0 ∧
    resolveWith special_cases (fun _ => "NN") "book"
      ["a", "printed", "work", "with", "pages"] = ⟨none, "none"⟩ ∧
    (resolveWith special_cases (fun _ => "NN") "book"
      ["a", "printed", "work", "with", "pages"]).resolvedSense ≠
      some bookReading.definition := by
  decide

/-- Claim C3 (amended): the code performs no overlap scoring: for every
word with at least two candidate senses and every context in which no
trigger fires, resolution returns no sense, with resolvedSense None and the
none branch taken, never an overlap-selected sense. -/
theorem C3_no_overlap_scoring (tagger : String → String) (word : String)
    (tokens : List String)
    (_htwo : 2 ≤ (lookupSenses special_cases (lower word)).length)
    (hnohit : ∀ s ∈ lookupSenses special_cases (lower word),
      senseMatches s (contextWordsOf tokens) = false) :
    resolveWith special_cases tagger word tokens = ⟨none, "none"⟩ ∧
    (resolveWith special_cases tagger word tokens).matchedBy ≠ "overlap" := by
  have h := resolveWith_of_no_trigger special_cases tagger word tokens
    (findTriggered_eq_none _ _ hnohit)
  exact ⟨h, by rw [h]; decide⟩

/-- Witness for the amended C3 at word book and context
[a, printed, work, with, pages]. -/
theorem C3_witness :
    resolveWith special_cases (fun _ => "NN") "book"
      ["a", "printed", "work", "with", "pages"] = ⟨none, "none"⟩ ∧
    (resolveWith special_cases (fun _ => "NN") "book"
      ["a", "printed", "work", "with", "pages"]).matchedBy ≠ "overlap" :=
  C3_no_overlap_scoring (fun _ => "NN") "book"
    ["a", "printed", "work", "with", "pages"] (by decide) (by decide)

/-- Claim C4: resolution never raises.  The only fallible step, the WordNet
lookup, always fails with the NameError on the unbound name wn, the
surrounding handler absorbs it, and for every input the result is one of
the two defined outcomes: a trigger-matched sense via the override branch,
or the None fallback. -/
theorem C4_never_raises (tagger : String → String) (word : String)
    (tokens : List String) :
    wordnetLookup tagger word = Except.error nameErrorWn ∧
    ((∃ s : Sense,
        findTriggered (contextWordsOf tokens)
          (lookupSenses special_cases (lower word)) = some s ∧
        resolveWith special_cases tagger word tokens =
          ⟨some s.definition, "override"⟩) ∨
      resolveWith special_cases tagger word tokens = ⟨none, "none"⟩) := by
  refine ⟨wordnetLookup_eq_error tagger word, ?_⟩
  cases h : findTriggered (contextWordsOf tokens)
      (lookupSenses special_cases (lower word)) with
  | some s =>
    exact Or.inl ⟨s, rfl, resolveWith_of_trigger special_cases tagger word tokens s h⟩
  | none =>
    exact Or.inr (resolveWith_of_no_trigger special_cases tagger word tokens h)

/-- Claim C5: for every word absent from the sense inventory and every
context, resolution returns no sense, the None value, through the none
branch, and never raises. -/
theorem C5_unknown_word_none (tagger : String → String) (word : String)
    (tokens : List String)
    (habsent : lookupSenses special_cases (lower word) = []) :
    resolveWith special_cases tagger word tokens = ⟨none, "none"⟩ ∧
    disambiguate_word tagger word tokens = none := by
  have h : findTriggered (contextWordsOf tokens)
      (lookupSenses special_cases (lower word)) = none := by
    rw [habsent]; rfl
  have h2 := resolveWith_of_no_trigger special_cases tagger word tokens h
  refine ⟨h2, ?_⟩
  unfold disambiguate_word
  rw [h2]

/-- Witness for C5 at the word zebra, absent from the inventory. -/
theorem C5_witness :
    resolveWith special_cases (fun _ => "NN") "zebra" ["money"] = ⟨none, "none"⟩ ∧
    disambiguate_word (fun _ => "NN") "zebra" ["money"] = none :=
  C5_unknown_word_none (fun _ => "NN") "zebra" ["money"] (by decide)

/-- Claim C6: for every tag-to-category mapping, every tag and every word
present in the inventory, the narrowing rule of the spec keeps the full
candidate list (the curated senses carry no grammatical category, so no
sense matches any tag and the rule fails open), never empties it, and
resolution over the filtered list is resolution over the full list. -/
theorem C6_tag_fail_open (mapCat : String → String) (tag : String)
    (tagger : String → String) (word : String) (tokens : List String)
    (hpresent : lookupSenses special_cases (lower word) ≠ []) :
    specFilterByTag mapCat tag (lookupSenses special_cases (lower word)) =
      lookupSenses special_cases (lower word) ∧
    specFilterByTag mapCat tag (lookupSenses special_cases (lower word)) ≠ [] ∧
    resolveSenses (specFilterByTag mapCat tag (lookupSenses special_cases (lower word)))
      tagger word tokens = resolveWith special_cases tagger word tokens := by
  have hid := specFilterByTag_id mapCat tag (lookupSenses special_cases (lower word))
  refine ⟨hid, ?_, ?_⟩
  · rw [hid]; exact hpresent
  · rw [hid]; rfl

/-- Witness for C6 at word bank with a noun tag. -/
theorem C6_witness :
    specFilterByTag (fun _ => "noun") "NN" (lookupSenses special_cases (lower "bank")) =
      lookupSenses special_cases (lower "bank") ∧
    specFilterByTag (fun _ => "noun") "NN"
      (lookupSenses special_cases (lower "bank")) ≠ [] ∧
    resolveSenses (specFilterByTag (fun _ => "noun") "NN"
        (lookupSenses special_cases (lower "bank"))) (fun _ => "NN") "bank" ["money"] =
      resolveWith special_cases (fun _ => "NN") "bank" ["money"] :=
  C6_tag_fail_open (fun _ => "noun") "NN" (fun _ => "NN") "bank" ["money"] (by decide)

/-- Claim C7: resolution is case-insensitive: two words with the same
lowercasing, in two contexts whose token lists agree after lowercasing,
resolve to the same result (in particular a word resolves as its lowercased
form does). -/
theorem C7_case_insensitive (tagger : String → String) (w w2 : String)
    (toks toks2 : List String)
    (hw : lower w = lower w2)
    (ht : toks.map lower = toks2.map lower) :
    resolveWith special_cases tagger w toks =
      resolveWith special_cases tagger w2 toks2 := by
  have hcw : contextWordsOf toks = contextWordsOf toks2 := ht
  cases h : findTriggered (contextWordsOf toks2)
      (lookupSenses special_cases (lower w2)) with
  | some s =>
    have h1 := resolveWith_of_trigger special_cases tagger w toks s
      (by rw [hw, hcw]; exact h)
    have h2 := resolveWith_of_trigger special_cases tagger w2 toks2 s h
    rw [h1, h2]
  | none =>
    have h1 := resolveWith_of_no_trigger special_cases tagger w toks
      (by rw [hw, hcw]; exact h)
    have h2 := resolveWith_of_no_trigger special_cases tagger w2 toks2 h
    rw [h1, h2]

/-- Witness for C7: Bank with context token MONEY resolves as bank with
context token money does. -/
theorem C7_witness :
    resolveWith special_cases (fun _ => "NN") "Bank" ["MONEY"] =
      resolveWith special_cases (fun _ => "NN") "bank" ["money"] :=
  C7_case_insensitive (fun _ => "NN") "Bank" "bank" ["MONEY"] ["money"]
    (by decide) (by decide)

/-- Claim C8: resolution is deterministic and idempotent: a second call
with unchanged inputs, run from the state the first call left behind,
returns the identical result and state. -/
theorem C8_idempotent (b : BotState) (tagger : String → String) (word : String)
    (tokens : List String) :
    disambiguateCall ((disambiguateCall b tagger word tokens).2) tagger word tokens =
      disambiguateCall b tagger word tokens :=
  rfl

/-- Claim C9: resolution is a pure function of the inputs and the inventory
state: a call leaves the bot state, and with it the sense table, unchanged,
and its value is a function of that table, the tagger, the word and the
context tokens. -/
theorem C9_inventory_readonly (b : BotState) (tagger : String → String)
    (word : String) (tokens : List String) :
    (disambiguateCall b tagger word tokens).2 = b ∧
    (disambiguateCall b tagger word tokens).1 =
      resolveWith b.special_cases tagger word tokens :=
  ⟨rfl, rfl⟩

/-- Claim C10: whenever the trigger scan finds nothing (the word is absent
from the table, or no curated trigger meets the context tokens), the
WordNet branch always raises the NameError on the unbound name wn for
every possible tagger output, the handler swallows it, and the function
returns None. -/
theorem C10_wordnet_branch_dead (tagger : String → String) (word : String)
    (tokens : List String)
    (h : findTriggered (contextWordsOf tokens)
      (lookupSenses special_cases (lower word)) = none) :
    wordnetLookup tagger word = Except.error nameErrorWn ∧
    disambiguate_word tagger word tokens = none := by
  refine ⟨wordnetLookup_eq_error tagger word, ?_⟩
  unfold disambiguate_word
  rw [resolveWith_of_no_trigger special_cases tagger word tokens h]

/-- Witness for C10 at the curated word bat in a context that fires no
trigger. -/
theorem C10_witness :
    wordnetLookup (fun _ => "NN") "bat" = Except.error nameErrorWn ∧
    disambiguate_word (fun _ => "NN") "bat" ["hello"] = none :=
  C10_wordnet_branch_dead (fun _ => "NN") "bat" ["hello"] (by decide)
